import Mathlib

/-!
Verification of the tinytable SQL DDL builder library.

The library builds `CREATE TABLE` and `ALTER TABLE ... ADD` statements from
typed descriptions of columns.  This file gives a shallow embedding of the
data model (`Type` — here `SqlType`, `Attribute`, `ForeignKeyAttribute`,
`Column`, `TableName`, the `Table` trait) and of the operations
(`column`, `primary_key`, `unique`, `foreign_key`, `escape_string`,
`Table::create_sql`, `Column::name`, `Column::create_statement`,
`Column::create_add_sql`), and proves the specified properties.

Rust functions that unconditionally abort on the `Constraint` arm
(`Column::name`, `Column::create_add_sql`, and the builders that call them)
are embedded as `Option`-returning functions, `none` marking the abort.
-/

namespace TinyTable

/-- The single-quote character, U+0027. -/
def squote : Char := Char.ofNat 39

/-- The one-character string holding only a single quote. -/
def squoteStr : String := String.mk [squote]

/-- Embeds `str::replace` with a one-character needle: doubling of every
single quote in a character list, as performed by
`value.replace("\x27", "\x27\x27")` in `escape_string`. -/
def escapeQuotes : List Char → List Char
  | [] => []
  | c :: rest =>
    if c = squote then c :: c :: escapeQuotes rest else c :: escapeQuotes rest

/-- The string-level doubling of quotes used by `escape_string`. -/
def replaceQuote (value : String) : String := String.mk (escapeQuotes value.data)

/-- Embeds `escape_string` (src/src/lib.rs lines 189-196): if the value
contains a single quote, double every quote, then (in both branches) wrap
the result in a leading and a trailing single quote. -/
def escape_string (value : String) : String :=
  if value.data.contains squote then
    squoteStr ++ replaceQuote value ++ squoteStr
  else
    squoteStr ++ value ++ squoteStr

/-- The closed enumeration of SQL column types, `Type` in the source
(src/src/lib.rs lines 84-105); `Type` is a reserved word in Lean. -/
inductive SqlType where
  | INTEGER
  | INT
  | TINYINT
  | SMALLINT
  | MEDIUMINT
  | BIGINT
  | UNSIGNED_BIG_INT
  | INT2
  | INT8
  | TEXT
  | CLOB
  | BLOB
  | REAL
  | DOUBLE
  | DOUBLE_PRECISION
  | FLOAT
  | NUMERIC
  | BOOLEAN
  | DATE
  | DATETIME
deriving DecidableEq, Fintype

/-- Embeds `Type::name` (src/src/lib.rs lines 107-132). -/
def SqlType.name : SqlType → String
  | .INTEGER => "INTEGER"
  | .INT => "INT"
  | .TINYINT => "TINYINT"
  | .SMALLINT => "SMALLINT"
  | .MEDIUMINT => "MEDIUMINT"
  | .BIGINT => "BIGINT"
  | .UNSIGNED_BIG_INT => "UNSIGNED BIG INT"
  | .INT2 => "INT2"
  | .INT8 => "INT8"
  | .TEXT => "TEXT"
  | .CLOB => "CLOB"
  | .BLOB => "BLOB"
  | .REAL => "REAL"
  | .DOUBLE => "DOUBLE"
  | .DOUBLE_PRECISION => "DOUBLE PRECISION"
  | .FLOAT => "FLOAT"
  | .NUMERIC => "NUMERIC"
  | .BOOLEAN => "BOOLEAN"
  | .DATE => "DATE"
  | .DATETIME => "DATETIME"

/-- The column attribute vocabulary (src/src/lib.rs lines 134-143). -/
inductive Attribute where
  | PRIMARY_KEY
  | ASC
  | DESC
  | UNIQUE
  | NOT_NULL
  | AUTOINCREMENT
  | DEFAULT (value : String)
deriving DecidableEq

/-- Embeds `Attribute::name` (src/src/lib.rs lines 145-157). -/
def Attribute.name : Attribute → String
  | .PRIMARY_KEY => "PRIMARY KEY"
  | .ASC => "ASC"
  | .DESC => "DESC"
  | .UNIQUE => "UNIQUE"
  | .NOT_NULL => "NOT NULL"
  | .AUTOINCREMENT => "AUTOINCREMENT"
  | .DEFAULT value => "DEFAULT " ++ escape_string value

/-- The foreign-key action vocabulary (src/src/lib.rs lines 159-170). -/
inductive ForeignKeyAttribute where
  | REFERENCES
  | ON_DELETE
  | ON_UPDATE
  | SET_NULL
  | SET_DEFAULT
  | CASCADE
  | RESTRICT
  | NO_ACTION
  | DEFERRABLE_INITIALLY_DEFERRED
deriving DecidableEq

/-- Embeds the `Display` rendering of `ForeignKeyAttribute`
(src/src/lib.rs lines 172-187). -/
def ForeignKeyAttribute.display : ForeignKeyAttribute → String
  | .REFERENCES => "REFERENCES"
  | .ON_DELETE => "ON DELETE"
  | .ON_UPDATE => "ON UPDATE"
  | .SET_NULL => "SET NULL"
  | .SET_DEFAULT => "SET DEFAULT"
  | .CASCADE => "CASCADE"
  | .RESTRICT => "RESTRICT"
  | .NO_ACTION => "NO ACTION"
  | .DEFERRABLE_INITIALLY_DEFERRED => "DEFERRABLE INITIALLY DEFERRED"

/-- The `Column` tagged union (src/src/lib.rs lines 216-223): a named
column definition with a type and optional attribute list, or a raw
pre-rendered constraint fragment. -/
inductive Column where
  | Definition (name : String) (column_type : SqlType)
      (attributes : Option (List Attribute))
  | Constraint (value : String)
deriving DecidableEq

/-- Embeds `Column::name` (src/src/lib.rs lines 226-231).  The Rust
function aborts on the `Constraint` arm; the abort is `none` here. -/
def Column.getName : Column → Option String
  | .Definition name _ _ => some name
  | .Constraint _ => none

/-- Embeds `Column::create_statement` (src/src/lib.rs lines 233-254). -/
def Column.create_statement : Column → String
  | .Definition name column_type attributes =>
    match attributes with
    | some attrs =>
      name ++ " " ++ column_type.name ++ " "
        ++ String.intercalate " " (attrs.map Attribute.name)
    | none => name ++ " " ++ column_type.name
  | .Constraint value => value

/-- Embeds `Column::create_add_sql` (src/src/lib.rs lines 256-263); the
abort on the `Constraint` arm is `none`. -/
def Column.create_add_sql : Column → Option String
  | c@(.Definition name _ _) =>
    some ("ALTER TABLE " ++ name ++ " ADD " ++ c.create_statement)
  | .Constraint _ => none

/-- The `TableName` newtype around identifier text
(src/src/lib.rs lines 266-284). -/
structure TableName where
  val : String
deriving DecidableEq

/-- The `Table` trait (src/src/lib.rs lines 198-214): anything exposing a
name and an ordered column sequence.  The shallow embedding records
exactly those two capabilities. -/
structure Table where
  name : String
  columns : List Column

/-- Embeds the provided method `Table::create_sql`
(src/src/lib.rs lines 203-213). -/
def Table.create_sql (t : Table) : String :=
  "CREATE TABLE " ++ t.name ++ " ("
    ++ String.intercalate ", " (t.columns.map Column.create_statement) ++ ")"

/-- Embeds the `column` builder (src/src/lib.rs lines 19-33): an empty
attribute collection is stored as `none`. -/
def column (name : String) (column_type : SqlType)
    (attributes : List Attribute) : Column :=
  Column.Definition name column_type
    (if attributes.isEmpty then none else some attributes)

/-- Embeds `primary_key` (src/src/lib.rs lines 35-45).  It calls
`Column::name` on every key, so a `Constraint`-shaped key aborts
(`none`). -/
def primary_key (keys : List Column) : Option Column :=
  (List.mapM Column.getName keys).map fun names =>
    Column.Constraint
      (Attribute.PRIMARY_KEY.name ++ " (" ++ String.intercalate ", " names ++ ")")

/-- Embeds `unique` (src/src/lib.rs lines 71-81). -/
def unique (keys : List Column) : Option Column :=
  (List.mapM Column.getName keys).map fun names =>
    Column.Constraint
      (Attribute.UNIQUE.name ++ " (" ++ String.intercalate ", " names ++ ")")

/-- Embeds `foreign_key` (src/src/lib.rs lines 47-69).  It calls
`Column::name` on both column arguments, so a `Constraint`-shaped
argument aborts (`none`). -/
def foreign_key (column_name : Column) (references : ForeignKeyAttribute)
    (other_table_name : TableName) (other_table_column : Column)
    (attributes : List ForeignKeyAttribute) : Option Column :=
  match Column.getName column_name, Column.getName other_table_column with
  | some cn, some ocn =>
    some (Column.Constraint
      ("FOREIGN KEY (" ++ cn ++ ") " ++ references.display ++ " "
        ++ other_table_name.val ++ " (" ++ ocn ++ ")"
        ++ (if attributes.isEmpty then ""
            else " " ++ String.intercalate " "
              (attributes.map ForeignKeyAttribute.display))))
  | _, _ => none


/-! ## Specification-side definitions

These definitions follow the wording of the specification (not the source)
and are compared with the source embeddings above. -/

/-- Modelled from the spec wording for the round-trip of claim C2: every
single-quote character is doubled. -/
def doubledQuotes (l : List Char) : List Char :=
  (l.map fun c => if c = squote then [squote, squote] else [c]).flatten

/-- Modelled from the spec wording for the round-trip of claim C2: replace
each doubled single quote by a single one. -/
def undouble : List Char → List Char
  | [] => []
  | [c] => [c]
  | c :: c2 :: rest =>
    if c = squote ∧ c2 = squote then squote :: undouble rest
    else c :: undouble (c2 :: rest)

/-- Modelled from the spec wording for the round-trip of claim C2: strip
the outer quotes, then replace each doubled quote with a single quote. -/
def unescape_string (s : String) : String :=
  String.mk (undouble (s.data.drop 1).dropLast)

/-- Modelled from the spec wording of claim C1: a Definition-shaped column
renders as its name, a space, its type keyword, and, when attributes are
present, a space followed by the rendered attributes joined by single
spaces; a Constraint-shaped column is its stored text verbatim. -/
def specFragment : Column → String
  | .Definition name ty none => name ++ " " ++ ty.name
  | .Definition name ty (some attrs) =>
    name ++ " " ++ ty.name ++ " "
      ++ String.intercalate " " (attrs.map Attribute.name)
  | .Constraint text => text

/-- Modelled from the spec wording of claim C10: the unconditional form of
the escaping, always doubling every quote and wrapping in quotes. -/
def escape_string_unconditional (value : String) : String :=
  squoteStr ++ replaceQuote value ++ squoteStr

/-! ## Helper lemmas -/

lemma data_append (s t : String) : (s ++ t).data = s.data ++ t.data := by
  cases s; cases t; rfl

lemma escapeQuotes_of_not_mem {l : List Char} (h : squote ∉ l) :
    escapeQuotes l = l := by
  induction l with
  | nil => rfl
  | cons c rest ih =>
    have hc : c ≠ squote := fun he => h (he ▸ List.mem_cons_self c rest)
    have hr : squote ∉ rest := fun hm => h (List.mem_cons_of_mem c hm)
    simp [escapeQuotes, hc, ih hr]

lemma escapeQuotes_eq_doubledQuotes (l : List Char) :
    escapeQuotes l = doubledQuotes l := by
  induction l with
  | nil => rfl
  | cons c rest ih =>
    by_cases hc : c = squote <;> simp [escapeQuotes, doubledQuotes, hc] <;>
      simpa [doubledQuotes] using ih

lemma undouble_cons_of_ne {c : Char} (h : c ≠ squote) (l : List Char) :
    undouble (c :: l) = c :: undouble l := by
  cases l with
  | nil => rfl
  | cons d t => simp [undouble, h]

lemma undouble_escapeQuotes (l : List Char) :
    undouble (escapeQuotes l) = l := by
  induction l with
  | nil => rfl
  | cons c rest ih =>
    by_cases hc : c = squote
    · subst hc
      simp [escapeQuotes, undouble, ih]
    · rw [escapeQuotes, if_neg hc, undouble_cons_of_ne hc, ih]

lemma escape_string_data (v : String) :
    (escape_string v).data = squote :: escapeQuotes v.data ++ [squote] := by
  unfold escape_string
  split
  · simp [data_append, squoteStr, replaceQuote]
  · rename_i h
    have hm : squote ∉ v.data := by
      simpa using h
    simp [data_append, squoteStr, escapeQuotes_of_not_mem hm]

lemma create_statement_eq_specFragment (c : Column) :
    c.create_statement = specFragment c := by
  cases c with
  | Definition name ty attrs => cases attrs <;> rfl
  | Constraint v => rfl


/-! ## Claim theorems -/

/-- Claim C1: for every table (name plus ordered column sequence),
`create_sql` returns exactly "CREATE TABLE <name> (<fragments>)", where a
Definition-shaped column renders as its name, a space, its type keyword,
and, when attributes are present, a space followed by the attribute texts
joined by single spaces (no trailing space when attributes are absent); a
Constraint-shaped column contributes its stored text verbatim; and the
fragments are joined by ", " in exactly the caller-supplied column order,
with no reordering and no deduplication. -/
theorem create_sql_spec (t : Table) :
    t.create_sql = "CREATE TABLE " ++ t.name ++ " ("
      ++ String.intercalate ", " (t.columns.map specFragment) ++ ")" := by
  have h : Column.create_statement = specFragment :=
    funext create_statement_eq_specFragment
  simp only [Table.create_sql, h]

/-- Claim C2: for every string, `escape_string` returns the value with
every single-quote character doubled, wrapped in one leading and one
trailing single quote; stripping the outer quotes and replacing each
doubled quote with a single quote recovers the original string exactly. -/
theorem escape_string_doubles_and_roundtrips (v : String) :
    escape_string v = String.mk (squote :: doubledQuotes v.data ++ [squote]) ∧
    unescape_string (escape_string v) = v := by
  have hd : (escape_string v).data = squote :: escapeQuotes v.data ++ [squote] :=
    escape_string_data v
  constructor
  · apply String.ext
    rw [hd, escapeQuotes_eq_doubledQuotes]
  · apply String.ext
    simp [unescape_string, hd, List.dropLast_concat, undouble_escapeQuotes]

/-- Claim C3: for Definition-shaped local and referenced columns, any
table-name source and any list of extra clauses, `foreign_key` renders
exactly "FOREIGN KEY (<col>) <ACTION> <table> (<other_col>)" followed,
when the extra list is non-empty, by exactly one leading space and the
extra clauses joined by single spaces; when the extra list is empty no
trailing space is emitted. -/
theorem foreign_key_spec (c oc : Column) (cn ocn : String)
    (r : ForeignKeyAttribute) (tn : TableName)
    (extra : List ForeignKeyAttribute)
    (h1 : c.getName = some cn) (h2 : oc.getName = some ocn) :
    foreign_key c r tn oc extra = some (Column.Constraint
      ("FOREIGN KEY (" ++ cn ++ ") " ++ r.display ++ " " ++ tn.val
        ++ " (" ++ ocn ++ ")"
        ++ (if extra = [] then ""
            else " " ++ String.intercalate " "
              (extra.map ForeignKeyAttribute.display)))) := by
  cases extra <;> simp [foreign_key, h1, h2, List.isEmpty]

/-- Witness for claim C3 at concrete inputs, with and without extras. -/
theorem foreign_key_spec_witness :
    foreign_key (column "id" SqlType.INTEGER []) ForeignKeyAttribute.REFERENCES
        ⟨"my_table"⟩ (column "hoge" SqlType.TEXT [])
        [ForeignKeyAttribute.ON_DELETE, ForeignKeyAttribute.CASCADE]
      = some (Column.Constraint
          "FOREIGN KEY (id) REFERENCES my_table (hoge) ON DELETE CASCADE") ∧
    foreign_key (column "id" SqlType.INTEGER []) ForeignKeyAttribute.REFERENCES
        ⟨"my_table"⟩ (column "hoge" SqlType.TEXT []) []
      = some (Column.Constraint
          "FOREIGN KEY (id) REFERENCES my_table (hoge)") := by
  constructor
  · rw [foreign_key_spec (column "id" SqlType.INTEGER [])
      (column "hoge" SqlType.TEXT []) "id" "hoge" ForeignKeyAttribute.REFERENCES
      ⟨"my_table"⟩ [ForeignKeyAttribute.ON_DELETE, ForeignKeyAttribute.CASCADE]
      (by decide) (by decide)]
    decide
  · rw [foreign_key_spec (column "id" SqlType.INTEGER [])
      (column "hoge" SqlType.TEXT []) "id" "hoge" ForeignKeyAttribute.REFERENCES
      ⟨"my_table"⟩ [] (by decide) (by decide)]
    decide

/-- Counterexample to claim C4 as stated: a Column whose attribute field
is the empty list (rather than absent) renders with a trailing space, not
identically to a Column whose attribute field is absent. -/
theorem column_some_empty_attrs_counterexample :
    (Column.Definition "id" SqlType.INTEGER (some [])).create_statement
      ≠ (Column.Definition "id" SqlType.INTEGER none).create_statement := by
  decide

/-- Claim C4 as amended: `column name ty []` stores the attributes as
absent (not as an empty list), and the resulting definition fragment is
exactly "<name> <TYPE>" with no trailing space, identical to a Column
whose attribute field is absent; a Column built directly with an empty
attribute list instead renders with one trailing space. -/
theorem column_empty_attrs_amended (name : String) (ty : SqlType) :
    column name ty [] = Column.Definition name ty none ∧
    (column name ty []).create_statement = name ++ " " ++ ty.name ∧
    (Column.Definition name ty (some [])).create_statement
      = name ++ " " ++ ty.name ++ " " := by
  refine ⟨rfl, rfl, ?_⟩
  simp [Column.create_statement, String.intercalate]

/-- Claim C5: for every sequence of Definition-shaped columns (their names
collected in order by `Column::name`), `primary_key` and `unique` return a
Constraint-shaped Column whose text is exactly "PRIMARY KEY (<names>)"
resp. "UNIQUE (<names>)", names joined by ", " in exactly the input order,
with no deduplication and no sorting. -/
theorem primary_key_unique_spec (keys : List Column) (names : List String)
    (h : List.mapM Column.getName keys = some names) :
    primary_key keys = some (Column.Constraint
      ("PRIMARY KEY (" ++ String.intercalate ", " names ++ ")")) ∧
    unique keys = some (Column.Constraint
      ("UNIQUE (" ++ String.intercalate ", " names ++ ")")) := by
  constructor
  · simp only [primary_key]
    rw [h]
    rfl
  · simp only [unique]
    rw [h]
    rfl

/-- Witness for claim C5 at two concrete columns, order preserved. -/
theorem primary_key_unique_spec_witness :
    primary_key [column "col1" SqlType.TEXT [], column "col2" SqlType.TEXT []]
      = some (Column.Constraint "PRIMARY KEY (col1, col2)") ∧
    unique [column "col1" SqlType.TEXT [], column "col2" SqlType.TEXT []]
      = some (Column.Constraint "UNIQUE (col1, col2)") := by
  obtain ⟨h1, h2⟩ := primary_key_unique_spec
    [column "col1" SqlType.TEXT [], column "col2" SqlType.TEXT []]
    ["col1", "col2"] (by decide)
  constructor
  · rw [h1]; decide
  · rw [h2]; decide

/-- Claim C6: name retrieval and the add-statement renderer abort
unconditionally (modelled as `none`) on every Constraint-shaped Column and
never return a value; on every Definition-shaped Column the failure branch
is unreachable and both operations return normally (`some`). -/
theorem shape_contract (v n : String) (ty : SqlType)
    (a : Option (List Attribute)) :
    (Column.Constraint v).getName = none ∧
    (Column.Constraint v).create_add_sql = none ∧
    (Column.Definition n ty a).getName = some n ∧
    ∃ s, (Column.Definition n ty a).create_add_sql = some s := by
  exact ⟨rfl, rfl, rfl, _, rfl⟩

/-- Claim C7: for every Definition-shaped Column, `create_add_sql` returns
exactly "ALTER TABLE <column-name> ADD <column fragment>", where the
ALTER TABLE target is the name of the column itself, and the fragment being the same
definition fragment `create_statement` used by `create_sql` (shown by a
one-column table). -/
theorem create_add_sql_spec (n tname : String) (ty : SqlType)
    (a : Option (List Attribute)) :
    (Column.Definition n ty a).create_add_sql
      = some ("ALTER TABLE " ++ n ++ " ADD "
          ++ (Column.Definition n ty a).create_statement) ∧
    (Table.mk tname [Column.Definition n ty a]).create_sql
      = "CREATE TABLE " ++ tname ++ " ("
          ++ (Column.Definition n ty a).create_statement ++ ")" := by
  exact ⟨rfl, rfl⟩

/-- Claim C8: `create_sql` is a deterministic pure query: its output is
fully determined by the observable table state (name and column sequence),
so two calls on the same Table yield byte-identical strings; the embedding
is a pure function, so the Table state is left unchanged. -/
theorem create_sql_deterministic (t u : Table)
    (hn : t.name = u.name) (hc : t.columns = u.columns) :
    t.create_sql = u.create_sql := by
  simp [Table.create_sql, hn, hc]

/-- Witness for claim C8 at a concrete table. -/
theorem create_sql_deterministic_witness :
    (Table.mk "my_table" [column "id" SqlType.INTEGER []]).create_sql
      = (Table.mk "my_table" [column "id" SqlType.INTEGER []]).create_sql :=
  create_sql_deterministic
    (Table.mk "my_table" [column "id" SqlType.INTEGER []])
    (Table.mk "my_table" [column "id" SqlType.INTEGER []]) rfl rfl

/-- Claim C9: the type-rendering function is total over the closed set of
exactly 20 `SqlType` variants and returns for each variant its documented
canonical keyword, multi-word keywords separated by single spaces. -/
theorem sqltype_name_total :
    Fintype.card SqlType = 20 ∧
    SqlType.name .INTEGER = "INTEGER" ∧
    SqlType.name .INT = "INT" ∧
    SqlType.name .TINYINT = "TINYINT" ∧
    SqlType.name .SMALLINT = "SMALLINT" ∧
    SqlType.name .MEDIUMINT = "MEDIUMINT" ∧
    SqlType.name .BIGINT = "BIGINT" ∧
    SqlType.name .UNSIGNED_BIG_INT = "UNSIGNED BIG INT" ∧
    SqlType.name .INT2 = "INT2" ∧
    SqlType.name .INT8 = "INT8" ∧
    SqlType.name .TEXT = "TEXT" ∧
    SqlType.name .CLOB = "CLOB" ∧
    SqlType.name .BLOB = "BLOB" ∧
    SqlType.name .REAL = "REAL" ∧
    SqlType.name .DOUBLE = "DOUBLE" ∧
    SqlType.name .DOUBLE_PRECISION = "DOUBLE PRECISION" ∧
    SqlType.name .FLOAT = "FLOAT" ∧
    SqlType.name .NUMERIC = "NUMERIC" ∧
    SqlType.name .BOOLEAN = "BOOLEAN" ∧
    SqlType.name .DATE = "DATE" ∧
    SqlType.name .DATETIME = "DATETIME" := by
  refine ⟨by decide, rfl, rfl, rfl, rfl, rfl, rfl, rfl, rfl, rfl, rfl, rfl,
    rfl, rfl, rfl, rfl, rfl, rfl, rfl, rfl, rfl⟩

/-- Claim C10: the guarded quote-escaping implementation (which first
tests whether the value contains a single quote) is extensionally equal to
the unconditional definition that always doubles every quote and wraps the
result in single quotes; the contains-check never changes the output. -/
theorem escape_string_guard_redundant (v : String) :
    escape_string v = escape_string_unconditional v := by
  unfold escape_string escape_string_unconditional
  split
  · rfl
  · rename_i h
    have hm : squote ∉ v.data := by simpa using h
    rw [replaceQuote, escapeQuotes_of_not_mem hm]

end TinyTable
